import Mathlib

/-!
Shallow embedding of the budget-dashboard aggregation and state logic of
`dashboard-presupuesto`.  The repository holds near-duplicate variants of one
single-page app; the logic embedded here comes from:

* `src/src/App.jsx`, first variant (lines 14-130): config resolver
  `getFirebaseConfig`, normalization with fallback "Otros Ramos", `stats`
  (totals, `executionRate` with `toFixed(1)` and sentinel `"0.0"`, `grouped`,
  `chartData` with `slice(0, 7)`), and the `onSnapshot` success/error callbacks.
* `src/src/App.jsx`, second variant (lines 288-376): `getEnv`-based config,
  normalization with fallback "Sin Clasificar", `executionRate` with
  `toFixed(2)` and sentinel `0`, grouping via `acc.find`/`push`, `slice(0, 5)`.
* `src/unnamed/part_000`, first variant (lines 14-125): normalization with
  fallback "Sin nombre", `executionRate` with `toFixed(1)` and sentinel `0`,
  the same object-keyed grouping and `slice(0, 7)` as the first App.jsx
  variant, and its own `onSnapshot` callbacks with an `snapshot.empty` branch.

JavaScript numbers are idealized as rationals (`ℚ`); `x.toFixed(d)` is
modelled as rounding to `d` decimal places with ties away from zero toward the
larger value, matching the ECMAScript `toFixed` specification ("if there are
two such n, pick the larger n").  JS object string keys preserve insertion
order for the non-index keys used here, so the object-keyed `reduce` grouping
and the `acc.find`/`push` grouping are both modelled by the same
first-occurrence-order fold.  `Array.prototype.sort` is stable, so its result
for the comparator `(a, b) => b.aprobado - a.aprobado` is modelled by a stable
insertion sort on the `aprobado` key in descending order.
-/

namespace Dashboard

/-- A raw JavaScript value sitting in a numeric document field
(`MONTO_APROBADO`, `MONTO_PAGADO`): a number, a value whose `Number(...)`
coercion is `NaN` (a non-numeric string, `undefined` inside an object is
covered by `missing`), or an absent field. -/
inductive RawVal where
  | num (q : ℚ)
  | nonNumeric
  | missing
deriving DecidableEq, Repr

/-- `Number(x)` on a `RawVal`; `none` stands for `NaN`. -/
def jsToNumber : RawVal → Option ℚ
  | .num q => some q
  | .nonNumeric => none
  | .missing => none

/-- `Number(x) || 0`: `NaN` (and `0` itself) yield `0`, any other number is
passed through, negative values included. -/
def numberOrZero (v : RawVal) : ℚ :=
  match jsToNumber v with
  | some q => if q = 0 then 0 else q
  | none => 0

/-- `s || fallback` for an optional string field: the fallback is used when
the field is absent (`undefined`) or the empty string (both falsy in JS). -/
def strOr (o : Option String) (fallback : String) : String :=
  match o with
  | some s => if s = "" then fallback else s
  | none => fallback

/-- A raw Firestore document as read by the `onSnapshot` callbacks: the doc
id plus the fields the variants touch.  String fields are `Option` so that an
absent field is representable; `some ""` is a present-but-falsy value. -/
structure RawDoc where
  id : String
  DESC_RAMO : Option String
  DESC_UR : Option String
  MONTO_APROBADO : RawVal
  MONTO_PAGADO : RawVal
deriving DecidableEq, Repr

/-- The normalized record produced by the first `App.jsx` variant and by
`part_000` (fields `id`, `ramo`, `aprobado`, `pagado`, `ur`). -/
structure Record where
  id : String
  ramo : String
  aprobado : ℚ
  pagado : ℚ
  ur : String
deriving DecidableEq, Repr

/-- The normalized record produced by the second `App.jsx` variant
(lines 340-348): it keeps the raw field name `DESC_RAMO` and has no `ur`. -/
structure RecordV2 where
  id : String
  DESC_RAMO : String
  aprobado : ℚ
  pagado : ℚ
deriving DecidableEq, Repr

/-- `src/src/App.jsx` lines 82-91: per-document normalization of the first
variant; the category fallback label is `"Otros Ramos"`. -/
def normalizeDoc (d : RawDoc) : Record :=
  { id := d.id
    ramo := strOr d.DESC_RAMO "Otros Ramos"
    aprobado := numberOrZero d.MONTO_APROBADO
    pagado := numberOrZero d.MONTO_PAGADO
    ur := strOr d.DESC_UR "N/A" }

/-- `src/src/App.jsx` lines 340-348: per-document normalization of the second
variant; the category fallback label is `"Sin Clasificar"`. -/
def normalizeDocV2 (d : RawDoc) : RecordV2 :=
  { id := d.id
    DESC_RAMO := strOr d.DESC_RAMO "Sin Clasificar"
    aprobado := numberOrZero d.MONTO_APROBADO
    pagado := numberOrZero d.MONTO_PAGADO }

/-- `src/unnamed/part_000` lines 88-97: per-document normalization of the
`part_000` variant; the category fallback label is `"Sin nombre"`. -/
def normalizeDocPart (d : RawDoc) : Record :=
  { id := d.id
    ramo := strOr d.DESC_RAMO "Sin nombre"
    aprobado := numberOrZero d.MONTO_APROBADO
    pagado := numberOrZero d.MONTO_PAGADO
    ur := strOr d.DESC_UR "N/A" }

/-- One chart group: `{ name, aprobado, pagado }`. -/
structure Group where
  name : String
  aprobado : ℚ
  pagado : ℚ
deriving DecidableEq, Repr

/-- One step of the grouping `reduce`: add the amounts of one record to the
group holding its category name, updating the first (and, by construction,
only) group with that name, or appending a fresh group at the end.  This is
the `acc.find`/`existing.x += ...`/`acc.push` fold of the second `App.jsx`
variant (lines 366-375) and, because JS objects preserve insertion order for
the string keys in play, also the object-keyed `reduce` of the first variant
(lines 118-123) and of `part_000` (lines 120-124). -/
def addToGroup : List Group → String → ℚ → ℚ → List Group
  | [], name, ap, pg => [⟨name, ap, pg⟩]
  | g :: gs, name, ap, pg =>
    if g.name = name then ⟨g.name, g.aprobado + ap, g.pagado + pg⟩ :: gs
    else g :: addToGroup gs name ap pg

/-- `src/src/App.jsx` lines 118-123 (`stats.grouped`, as the list
`Object.values(grouped)`) and `src/unnamed/part_000` lines 120-124: group the
normalized records by `ramo`, summing `aprobado` and `pagado`. -/
def grouped (data : List Record) : List Group :=
  data.foldl (fun acc curr => addToGroup acc curr.ramo curr.aprobado curr.pagado) []

/-- `src/src/App.jsx` lines 366-375: the second variant's grouping fold over
its records, keyed by `DESC_RAMO`. -/
def groupedV2 (data : List RecordV2) : List Group :=
  data.foldl (fun acc curr => addToGroup acc curr.DESC_RAMO curr.aprobado curr.pagado) []

/-- Stable insertion of a group into a list already sorted by descending
`aprobado`: the new group goes after every existing group with a greater or
equal amount.  Folding this over the input models the stable
`sort((a, b) => b.aprobado - a.aprobado)`. -/
def insertByAprobadoDesc : List Group → Group → List Group
  | [], g => [g]
  | h :: t, g =>
    if g.aprobado ≤ h.aprobado then h :: insertByAprobadoDesc t g
    else g :: h :: t

/-- Stable sort by descending `aprobado`, the model of
`.sort((a, b) => b.aprobado - a.aprobado)`. -/
def sortByAprobadoDesc (gs : List Group) : List Group :=
  gs.foldl insertByAprobadoDesc []

/-- `src/src/App.jsx` lines 125-127 (`stats.chartData`) and
`src/unnamed/part_000` lines 120-125: grouped data sorted by descending
`aprobado` and truncated with `slice(0, 7)`. -/
def chartData (data : List Record) : List Group :=
  (sortByAprobadoDesc (grouped data)).take 7

/-- `src/src/App.jsx` lines 366-376: the second variant's chart data,
truncated with `slice(0, 5)`. -/
def chartDataV2 (data : List RecordV2) : List Group :=
  (sortByAprobadoDesc (groupedV2 data)).take 5

/-- `src/src/App.jsx` line 114: `data.reduce((acc, curr) => acc + curr.aprobado, 0)`. -/
def totalApproved (data : List Record) : ℚ :=
  data.foldl (fun acc curr => acc + curr.aprobado) 0

/-- `src/src/App.jsx` line 115: `data.reduce((acc, curr) => acc + curr.pagado, 0)`. -/
def totalPaid (data : List Record) : ℚ :=
  data.foldl (fun acc curr => acc + curr.pagado) 0

/-- The second variant's total of `aprobado` (`src/src/App.jsx` line 361). -/
def totalApprovedV2 (data : List RecordV2) : ℚ :=
  data.foldl (fun acc curr => acc + curr.aprobado) 0

/-- The second variant's total of `pagado` (`src/src/App.jsx` line 362). -/
def totalPaidV2 (data : List RecordV2) : ℚ :=
  data.foldl (fun acc curr => acc + curr.pagado) 0

/-- `x.toFixed(d)` read back as a number: the nearest multiple of `10^(-d)`,
ties resolved toward the larger value, as ECMAScript specifies. -/
def toFixedQ (d : ℕ) (q : ℚ) : ℚ :=
  (⌊q * 10 ^ d + 1 / 2⌋ : ℚ) / 10 ^ d

/-- `src/src/App.jsx` line 116 and `src/unnamed/part_000` line 118:
`totalApproved > 0 ? ((totalPaid / totalApproved) * 100).toFixed(1) : "0.0"`
(the sentinel is the string `"0.0"` in the first variant and the number `0`
in `part_000`; both denote the value `0` modelled here). -/
def executionRate (data : List Record) : ℚ :=
  if totalApproved data > 0 then
    toFixedQ 1 (totalPaid data / totalApproved data * 100)
  else 0

/-- `src/src/App.jsx` line 363 (second variant):
`totalApproved > 0 ? ((totalPaid / totalApproved) * 100).toFixed(2) : 0`. -/
def executionRateV2 (data : List RecordV2) : ℚ :=
  if totalApprovedV2 data > 0 then
    toFixedQ 2 (totalPaidV2 data / totalApprovedV2 data * 100)
  else 0

/-- The component state the claims touch: the `data`, `loading` and `error`
`useState` cells of the first `App.jsx` variant (lines 37-39) and of
`part_000` (lines 34-36). -/
structure AppState where
  data : List Record
  loading : Bool
  error : Option String
deriving DecidableEq, Repr

/-- `src/src/App.jsx` lines 80-97: the `onSnapshot` success callback maps the
snapshot's documents through the normalization and replaces `data` with the
result (`setData(items)`), clearing `loading`. -/
def onSnapshotDocs (s : AppState) (docs : List RawDoc) : AppState :=
  { data := docs.map normalizeDoc
    loading := false
    error := s.error }

/-- `src/unnamed/part_000` lines 83-104: the success callback of `part_000`;
an empty snapshot sets `data` to `[]`, otherwise the mapped documents are
stored; `loading` is cleared either way. -/
def onSnapshotDocsPart (s : AppState) (docs : List RawDoc) : AppState :=
  if docs.isEmpty then
    { data := [], loading := false, error := s.error }
  else
    { data := docs.map normalizeDocPart, loading := false, error := s.error }

/-- `src/src/App.jsx` lines 99-106: the `onSnapshot` error callback of the
first variant sets the error string only when the current record list is
empty ("No bloqueamos toda la UI si hay datos previos"). -/
def onFirestoreError (s : AppState) (msg : String) : AppState :=
  if s.data.length = 0 then
    { s with error := some ("Acceso denegado o error de red: " ++ msg), loading := false }
  else s

/-- `src/unnamed/part_000` lines 106-109: the error callback of `part_000`
sets the error string unconditionally. -/
def onFirestoreErrorPart (s : AppState) (msg : String) : AppState :=
  { s with error := some ("Error de Firestore: " ++ msg), loading := false }

/-- `src/src/App.jsx` lines 58-62: the `catch` of `initAuth` in the first
variant sets the authentication error string and clears `loading`. -/
def onAuthError (s : AppState) : AppState :=
  { s with error := some "Error de autenticación: No se pudo establecer una sesión segura."
           loading := false }

/-- `src/unnamed/part_000` lines 59-62: the `catch` of `initAuth` in
`part_000` sets the authentication error string but, unlike the first
variant, does not touch `loading`. -/
def onAuthErrorPart (s : AppState) : AppState :=
  { s with error := some "Error al iniciar sesión de forma anónima." }

/-- Whether the error string is rendered: in the first `App.jsx` variant the
`if (loading)` screen (lines 134-141) short-circuits the whole view and the
error banner (lines 167-175) renders only under `{error && ...}`; `part_000`
has the same structure (lines 129-134 and 160-167).  So the string shows in
place of content exactly when `loading` is cleared and `error` is set. -/
def errorDisplayed (s : AppState) : Bool :=
  !s.loading && s.error.isSome

/-- A Firebase configuration object with the fields the variants build. -/
structure FirebaseConfig where
  apiKey : String
  authDomain : String
  projectId : String
  storageBucket : String
  messagingSenderId : String
  appId : String
deriving DecidableEq, Repr

/-- The state of the `__firebase_config` global for the first `App.jsx`
variant: `none` when the variable is undefined or falsy, `some none` when it
is a truthy string whose `JSON.parse` throws, `some (some c)` when it parses
to the object `c`. -/
def ConfigVar : Type := Option (Option FirebaseConfig)

/-- `src/src/App.jsx` lines 14-23 (`getFirebaseConfig`): return the parsed
`__firebase_config` when the variable is defined, truthy and parses; on a
parse error the `catch` falls through to `return null`.  No field of the
parsed object is inspected. -/
def getFirebaseConfig (v : ConfigVar) : Option FirebaseConfig :=
  match v with
  | some (some c) => some c
  | some none => none
  | none => none

/-- `src/src/App.jsx` lines 30-34: `app`, `db` and `auth` are initialized
only under `if (firebaseConfig && firebaseConfig.apiKey)` (a truthy, i.e.
non-empty, `apiKey`). -/
def servicesInitialized (v : ConfigVar) : Bool :=
  match getFirebaseConfig v with
  | some c => decide (c.apiKey ≠ "")
  | none => false

/-- `src/src/App.jsx` lines 44-49: the first effect sets the configuration
error string when `!firebaseConfig || !auth` (so also when the config parsed
but its `apiKey` is empty, since then `auth` was never initialized). -/
def configCheckError (v : ConfigVar) : Option String :=
  if getFirebaseConfig v = none then
    some "Configuración de servicios no detectada. Por favor, verifica el entorno de ejecución."
  else if servicesInitialized v = false then
    some "Configuración de servicios no detectada. Por favor, verifica el entorno de ejecución."
  else none

/-- `src/src/App.jsx` lines 44-49 as a state update: when the configuration
check fails the effect sets the error string and clears `loading`
(`setError(...)` then `setLoading(false)`); otherwise the state is left
alone. -/
def onConfigCheck (s : AppState) (v : ConfigVar) : AppState :=
  match configCheckError v with
  | some e => { s with error := some e, loading := false }
  | none => s

/-- `src/src/App.jsx` lines 288-294 (`getEnv`): `import.meta.env[key] || ""`,
with the `catch` also yielding `""`.  The environment is a partial map from
variable names to string values. -/
def getEnvVar (env : String → Option String) (key : String) : String :=
  match env key with
  | some v => if v = "" then "" else v
  | none => ""

/-- `src/src/App.jsx` lines 296-303: the second variant's config resolver
assembles a `FirebaseConfig` object from environment variables; it always
produces an object, never `null`, and validates nothing. -/
def firebaseConfigV2 (env : String → Option String) : FirebaseConfig :=
  { apiKey := getEnvVar env "VITE_FIREBASE_API_KEY"
    authDomain := getEnvVar env "VITE_FIREBASE_PROJECT_ID" ++ ".firebaseapp.com"
    projectId := getEnvVar env "VITE_FIREBASE_PROJECT_ID"
    storageBucket := getEnvVar env "VITE_FIREBASE_PROJECT_ID" ++ ".appspot.com"
    messagingSenderId := "123456789"
    appId := getEnvVar env "VITE_FIREBASE_APP_ID" }

/-- `src/src/App.jsx` lines 306-314: the second variant initializes `db` only
under `if (firebaseConfig.apiKey)`. -/
def dbInitializedV2 (env : String → Option String) : Bool :=
  decide ((firebaseConfigV2 env).apiKey ≠ "")

/-- The example record list of the spec's §8:
`[{ramo:"A",aprobado:100,pagado:50},{ramo:"A",aprobado:50,pagado:50},{ramo:"B",aprobado:200,pagado:0}]`. -/
def exList : List Record :=
  [⟨"1", "A", 100, 50, "N/A"⟩, ⟨"2", "A", 50, 50, "N/A"⟩, ⟨"3", "B", 200, 0, "N/A"⟩]

/-! ### Helper lemmas -/

theorem foldl_add_map_sum {α : Type} (f : α → ℚ) (l : List α) (c : ℚ) :
    l.foldl (fun acc x => acc + f x) c = c + (l.map f).sum := by
  induction l generalizing c with
  | nil => simp
  | cons x l ih => simp only [List.foldl_cons, List.map_cons, List.sum_cons, ih]; ring

theorem sum_map_aprobado_addToGroup (gs : List Group) (name : String) (ap pg : ℚ) :
    ((addToGroup gs name ap pg).map Group.aprobado).sum
      = (gs.map Group.aprobado).sum + ap := by
  induction gs with
  | nil => simp [addToGroup]
  | cons g gs ih =>
    by_cases h : g.name = name <;> simp [addToGroup, h, ih] <;> ring

theorem sum_map_pagado_addToGroup (gs : List Group) (name : String) (ap pg : ℚ) :
    ((addToGroup gs name ap pg).map Group.pagado).sum
      = (gs.map Group.pagado).sum + pg := by
  induction gs with
  | nil => simp [addToGroup]
  | cons g gs ih =>
    by_cases h : g.name = name <;> simp [addToGroup, h, ih] <;> ring

theorem sum_map_aprobado_foldl_addToGroup {α : Type} (key : α → String) (ap pg : α → ℚ)
    (l : List α) (acc : List Group) :
    ((l.foldl (fun a c => addToGroup a (key c) (ap c) (pg c)) acc).map Group.aprobado).sum
      = (acc.map Group.aprobado).sum + (l.map ap).sum := by
  induction l generalizing acc with
  | nil => simp
  | cons r l ih =>
    simp only [List.foldl_cons, List.map_cons, List.sum_cons, ih,
      sum_map_aprobado_addToGroup]
    ring

theorem sum_map_pagado_foldl_addToGroup {α : Type} (key : α → String) (ap pg : α → ℚ)
    (l : List α) (acc : List Group) :
    ((l.foldl (fun a c => addToGroup a (key c) (ap c) (pg c)) acc).map Group.pagado).sum
      = (acc.map Group.pagado).sum + (l.map pg).sum := by
  induction l generalizing acc with
  | nil => simp
  | cons r l ih =>
    simp only [List.foldl_cons, List.map_cons, List.sum_cons, ih,
      sum_map_pagado_addToGroup]
    ring

theorem mem_insertByAprobadoDesc {x g : Group} {gs : List Group}
    (h : x ∈ insertByAprobadoDesc gs g) : x = g ∨ x ∈ gs := by
  induction gs with
  | nil => simpa [insertByAprobadoDesc] using h
  | cons a t ih =>
    unfold insertByAprobadoDesc at h
    by_cases hc : g.aprobado ≤ a.aprobado
    · rw [if_pos hc] at h
      rcases List.mem_cons.mp h with h | h
      · exact Or.inr (h ▸ List.mem_cons_self a t)
      · rcases ih h with h | h
        · exact Or.inl h
        · exact Or.inr (List.mem_cons_of_mem a h)
    · rw [if_neg hc] at h
      rcases List.mem_cons.mp h with h | h
      · exact Or.inl h
      · exact Or.inr h

theorem pairwise_insertByAprobadoDesc (g : Group) {gs : List Group}
    (h : gs.Pairwise (fun a b => b.aprobado ≤ a.aprobado)) :
    (insertByAprobadoDesc gs g).Pairwise (fun a b => b.aprobado ≤ a.aprobado) := by
  induction gs with
  | nil => simp [insertByAprobadoDesc]
  | cons a t ih =>
    rcases List.pairwise_cons.mp h with ⟨ha, ht⟩
    unfold insertByAprobadoDesc
    by_cases hc : g.aprobado ≤ a.aprobado
    · rw [if_pos hc]
      refine List.pairwise_cons.mpr ⟨?_, ih ht⟩
      intro x hx
      rcases mem_insertByAprobadoDesc hx with rfl | hx
      · exact hc
      · exact ha x hx
    · rw [if_neg hc]
      refine List.pairwise_cons.mpr ⟨?_, h⟩
      intro x hx
      rcases List.mem_cons.mp hx with rfl | hx
      · exact le_of_lt (lt_of_not_ge hc)
      · exact le_trans (ha x hx) (le_of_lt (lt_of_not_ge hc))

theorem pairwise_sortByAprobadoDesc (gs : List Group) :
    (sortByAprobadoDesc gs).Pairwise (fun a b => b.aprobado ≤ a.aprobado) := by
  suffices h : ∀ acc : List Group,
      acc.Pairwise (fun a b => b.aprobado ≤ a.aprobado) →
      (gs.foldl insertByAprobadoDesc acc).Pairwise (fun a b => b.aprobado ≤ a.aprobado) from
    h [] (List.Pairwise.nil)
  induction gs with
  | nil => intro acc hacc; simpa using hacc
  | cons g t ih =>
    intro acc hacc
    exact ih _ (pairwise_insertByAprobadoDesc g hacc)

/-! ### Claims -/

/-- C1: for every list of normalized records, the sum of the `aprobado`
fields over the groups produced by the category-grouping step (before top-N
truncation) equals the sum of `aprobado` over the ungrouped input list, in
both grouping variants. -/
theorem grouped_conserves_aprobado (data : List Record) (dataV2 : List RecordV2) :
    ((grouped data).map Group.aprobado).sum = totalApproved data ∧
    ((groupedV2 dataV2).map Group.aprobado).sum = totalApprovedV2 dataV2 := by
  constructor
  · rw [grouped.eq_def, totalApproved.eq_def,
      sum_map_aprobado_foldl_addToGroup Record.ramo Record.aprobado Record.pagado,
      foldl_add_map_sum Record.aprobado]
    simp
  · rw [groupedV2.eq_def, totalApprovedV2.eq_def,
      sum_map_aprobado_foldl_addToGroup RecordV2.DESC_RAMO RecordV2.aprobado RecordV2.pagado,
      foldl_add_map_sum RecordV2.aprobado]
    simp

/-- C10: for every list of normalized records, the sum of the `pagado` fields
over the groups produced by the category-grouping step (before top-N
truncation) equals the sum of `pagado` over the ungrouped input list, in both
grouping variants. -/
theorem grouped_conserves_pagado (data : List Record) (dataV2 : List RecordV2) :
    ((grouped data).map Group.pagado).sum = totalPaid data ∧
    ((groupedV2 dataV2).map Group.pagado).sum = totalPaidV2 dataV2 := by
  constructor
  · rw [grouped.eq_def, totalPaid.eq_def,
      sum_map_pagado_foldl_addToGroup Record.ramo Record.aprobado Record.pagado,
      foldl_add_map_sum Record.pagado]
    simp
  · rw [groupedV2.eq_def, totalPaidV2.eq_def,
      sum_map_pagado_foldl_addToGroup RecordV2.DESC_RAMO RecordV2.aprobado RecordV2.pagado,
      foldl_add_map_sum RecordV2.pagado]
    simp

/-- C3: for every list of normalized records, the top-N chart output is
sorted in descending order of the grouped `aprobado` amount, and its length
is at most the per-variant constant passed to `slice` (7 in the first variant
and `part_000`, 5 in the second variant). -/
theorem chartData_sorted_topN (data : List Record) (dataV2 : List RecordV2) :
    (chartData data).Pairwise (fun a b => b.aprobado ≤ a.aprobado) ∧
    (chartData data).length ≤ 7 ∧
    (chartDataV2 dataV2).Pairwise (fun a b => b.aprobado ≤ a.aprobado) ∧
    (chartDataV2 dataV2).length ≤ 5 :=
  ⟨(pairwise_sortByAprobadoDesc _).take, List.length_take_le _ _,
   (pairwise_sortByAprobadoDesc _).take, List.length_take_le _ _⟩

/-- A one-record list on which the second variant's execution rate shows two
decimal places: `aprobado = 3`, `pagado = 1` gives `100 / 3 ≈ 33.333`,
`toFixed(2)` keeps `33.33`. -/
def rateV2Ex : List RecordV2 := [⟨"1", "A", 3, 1⟩]

/-- C2, counterexample: the claim says every variant rounds the execution
rate to exactly one decimal place, but the second `App.jsx` variant (line
363) uses `toFixed(2)`: on `rateV2Ex` it yields `33.33`, which differs from
the one-decimal rounding `33.3` of `100 × paid / approved`. -/
theorem executionRateV2_not_one_decimal :
    executionRateV2 rateV2Ex
      ≠ toFixedQ 1 (totalPaidV2 rateV2Ex / totalApprovedV2 rateV2Ex * 100) ∧
    executionRateV2 rateV2Ex = 3333 / 100 := by
  norm_num [executionRateV2, totalApprovedV2, totalPaidV2, toFixedQ, rateV2Ex]

/-- C2, amended: the execution rate is the sentinel (`"0.0"` in the first
variant, `0` elsewhere) whenever the total approved amount is not positive,
and otherwise equals `100 × (total paid / total approved)` rounded to one
decimal place in the first variant and `part_000`, but to two decimal places
in the second `App.jsx` variant. -/
theorem executionRate_formula (data : List Record) (dataV2 : List RecordV2) :
    (totalApproved data ≤ 0 → executionRate data = 0) ∧
    (0 < totalApproved data →
      executionRate data = toFixedQ 1 (totalPaid data / totalApproved data * 100)) ∧
    (totalApprovedV2 dataV2 ≤ 0 → executionRateV2 dataV2 = 0) ∧
    (0 < totalApprovedV2 dataV2 →
      executionRateV2 dataV2 = toFixedQ 2 (totalPaidV2 dataV2 / totalApprovedV2 dataV2 * 100)) := by
  refine ⟨fun h => ?_, fun h => ?_, fun h => ?_, fun h => ?_⟩
  · rw [executionRate, if_neg (not_lt.mpr h)]
  · rw [executionRate, if_pos h]
  · rw [executionRateV2, if_neg (not_lt.mpr h)]
  · rw [executionRateV2, if_pos h]

/-- Witness for `executionRate_formula`: the hypotheses are satisfiable, on
the spec's example list and on the empty list. -/
theorem executionRate_formula_witness :
    executionRate exList = toFixedQ 1 (totalPaid exList / totalApproved exList * 100) ∧
    executionRateV2 [] = 0 :=
  ⟨(executionRate_formula exList []).2.1 (by norm_num [totalApproved, exList]),
   (executionRate_formula exList []).2.2.1 (by norm_num [totalApprovedV2])⟩

/-- C4: on the spec's example list, total approved is 350, total paid is 100,
the execution rate is 28.6, the grouping holds `A` with `150/100` and `B`
with `200/0`, and the sorted chart data is ordered `[B, A]`. -/
theorem example_aggregation :
    totalApproved exList = 350 ∧ totalPaid exList = 100 ∧
    executionRate exList = 286 / 10 ∧
    Group.mk "A" 150 100 ∈ grouped exList ∧
    Group.mk "B" 200 0 ∈ grouped exList ∧
    chartData exList = [Group.mk "B" 200 0, Group.mk "A" 150 100] := by
  refine ⟨?_, ?_, ?_, ?_, ?_, ?_⟩
  · norm_num [totalApproved, exList]
  · norm_num [totalPaid, exList]
  · norm_num [executionRate, totalApproved, totalPaid, exList, toFixedQ]
  · simp +decide [grouped, exList, addToGroup]
    norm_num
  · simp +decide [grouped, exList, addToGroup]
  · simp +decide [chartData, grouped, exList, addToGroup, sortByAprobadoDesc,
      insertByAprobadoDesc]
    norm_num

/-- A document with no `DESC_RAMO` (and no amounts): the normalization of
each variant must pick its fallback label for it. -/
def docNoRamo : RawDoc := ⟨"d1", none, none, .missing, .missing⟩

/-- C5, counterexample: the fallback label is not the same across the
program's variants — on a document with a missing `DESC_RAMO` the first
`App.jsx` variant produces `"Otros Ramos"` while the second produces
`"Sin Clasificar"`. -/
theorem fallback_labels_differ :
    (normalizeDoc docNoRamo).ramo ≠ (normalizeDocV2 docNoRamo).DESC_RAMO := by
  decide

/-- C5, amended: within each variant the fallback is a fixed sentinel label
applied consistently to every document whose `DESC_RAMO` is missing or falsy,
but the label differs across variants: `"Otros Ramos"` in the first `App.jsx`
variant, `"Sin Clasificar"` in the second, `"Sin nombre"` in `part_000`. -/
theorem fallback_label_per_variant (d : RawDoc)
    (h : d.DESC_RAMO = none ∨ d.DESC_RAMO = some "") :
    (normalizeDoc d).ramo = "Otros Ramos" ∧
    (normalizeDocV2 d).DESC_RAMO = "Sin Clasificar" ∧
    (normalizeDocPart d).ramo = "Sin nombre" := by
  rcases h with h | h <;>
    simp [normalizeDoc, normalizeDocV2, normalizeDocPart, strOr, h]

/-- Witness for `fallback_label_per_variant` at the concrete document
`docNoRamo`. -/
theorem fallback_label_per_variant_witness :
    (normalizeDoc docNoRamo).ramo = "Otros Ramos" ∧
    (normalizeDocV2 docNoRamo).DESC_RAMO = "Sin Clasificar" ∧
    (normalizeDocPart docNoRamo).ramo = "Sin nombre" :=
  fallback_label_per_variant docNoRamo (Or.inl rfl)

/-- C6: the record list produced by a snapshot delivery is exactly the
mapping of that snapshot's documents and does not depend on the previously
held record list, in both the first `App.jsx` variant and `part_000`. -/
theorem snapshot_replaces_data (s t : AppState) (docs : List RawDoc) :
    (onSnapshotDocs s docs).data = docs.map normalizeDoc ∧
    (onSnapshotDocs s docs).data = (onSnapshotDocs t docs).data ∧
    (onSnapshotDocsPart s docs).data = docs.map normalizeDocPart ∧
    (onSnapshotDocsPart s docs).data = (onSnapshotDocsPart t docs).data := by
  refine ⟨rfl, rfl, ?_, ?_⟩ <;> cases docs <;> simp [onSnapshotDocsPart]

/-- A state already holding one record, as after a successful snapshot. -/
def prevDataState : AppState := ⟨[⟨"1", "Ramo A", 1, 1, "N/A"⟩], false, none⟩

/-- The component's initial state: no records, `loading` true, no error. -/
def initialState : AppState := ⟨[], true, none⟩

/-- C7, counterexample: two concrete violations of the claim.  In the first
`App.jsx` variant the subscription error callback does not surface any error
string when the current record list is non-empty — on `prevDataState` the
error stays `none`.  And in `part_000` the authentication catch sets the
error string without clearing `loading`, so on the initial state the string
is set but not displayed in place of content (the loading screen persists). -/
theorem firestore_error_swallowed :
    (onFirestoreError prevDataState "network down").error = none ∧
    (onAuthErrorPart initialState).error = some "Error al iniciar sesión de forma anónima." ∧
    errorDisplayed (onAuthErrorPart initialState) = false := by
  refine ⟨?_, rfl, rfl⟩
  simp [onFirestoreError, prevDataState]

/-- C7, amended: each failure mode — configuration absent, authentication
failure, subscription error — sets a single human-readable error string, and
the string is displayed in place of content once `loading` is also cleared,
with two deviations: in the first `App.jsx` variant the subscription error
callback sets the string only when the current record list is empty, and in
`part_000` the authentication catch sets the string without clearing
`loading`, so it is not displayed while the loading screen persists. -/
theorem error_string_surfaced (s : AppState) (msg : String) (v : ConfigVar) :
    ((onAuthError s).error
        = some "Error de autenticación: No se pudo establecer una sesión segura." ∧
      errorDisplayed (onAuthError s) = true) ∧
    ((onAuthErrorPart s).error = some "Error al iniciar sesión de forma anónima." ∧
      (onAuthErrorPart s).loading = s.loading ∧
      (s.loading = true → errorDisplayed (onAuthErrorPart s) = false)) ∧
    ((onFirestoreErrorPart s msg).error = some ("Error de Firestore: " ++ msg) ∧
      errorDisplayed (onFirestoreErrorPart s msg) = true) ∧
    (s.data = [] →
      (onFirestoreError s msg).error = some ("Acceso denegado o error de red: " ++ msg) ∧
      errorDisplayed (onFirestoreError s msg) = true) ∧
    (servicesInitialized v = false →
      (onConfigCheck s v).error
          = some "Configuración de servicios no detectada. Por favor, verifica el entorno de ejecución." ∧
      errorDisplayed (onConfigCheck s v) = true) := by
  refine ⟨⟨rfl, rfl⟩, ⟨rfl, rfl, fun h => ?_⟩, ⟨rfl, rfl⟩, fun h => ?_, fun h => ?_⟩
  · simp [errorDisplayed, onAuthErrorPart, h]
  · constructor <;> simp [onFirestoreError, errorDisplayed, h]
  · have hc : configCheckError v
        = some "Configuración de servicios no detectada. Por favor, verifica el entorno de ejecución." := by
      by_cases hv : getFirebaseConfig v = none <;> simp [configCheckError, hv, h]
    constructor <;> simp [onConfigCheck, errorDisplayed, hc]

/-- Witness for `error_string_surfaced` on the initial (empty-data, loading)
state and an undefined `__firebase_config`. -/
theorem error_string_surfaced_witness :
    errorDisplayed (onAuthErrorPart initialState) = false ∧
    ((onFirestoreError initialState "x").error
        = some ("Acceso denegado o error de red: " ++ "x") ∧
      errorDisplayed (onFirestoreError initialState "x") = true) ∧
    ((onConfigCheck initialState none).error
        = some "Configuración de servicios no detectada. Por favor, verifica el entorno de ejecución." ∧
      errorDisplayed (onConfigCheck initialState none) = true) := by
  have h := error_string_surfaced initialState "x" none
  exact ⟨h.2.1.2.2 rfl, h.2.2.2.1 rfl, h.2.2.2.2 rfl⟩

/-- A parsed configuration whose `apiKey` is empty: it fails the `apiKey`
validation but is happily returned by the resolver. -/
def badConfig : FirebaseConfig := ⟨"", "", "", "", "", ""⟩

/-- An environment defining no variables. -/
def emptyEnv : String → Option String := fun _ => none

/-- C8, counterexample: the resolvers do not validate what they return — the
first variant's `getFirebaseConfig` passes through a parsed object with an
empty `apiKey`, and the second variant's builder yields a structure (never
null) whose `apiKey` is empty when the environment is empty. -/
theorem resolver_returns_unvalidated :
    getFirebaseConfig (some (some badConfig)) = some badConfig ∧
    badConfig.apiKey = "" ∧
    (firebaseConfigV2 emptyEnv).apiKey = "" :=
  ⟨rfl, rfl, rfl⟩

/-- C8, amended: the resolvers return the raw parsed or assembled
configuration (or null, in the parsing variant) without validating it; the
`apiKey` validation lives in the separate initialization guard, and services
are initialized only when the resolved configuration has a non-empty
`apiKey`. -/
theorem init_guard_validates (v : ConfigVar) (env : String → Option String) :
    (servicesInitialized v = true →
      ∃ c, getFirebaseConfig v = some c ∧ c.apiKey ≠ "") ∧
    (dbInitializedV2 env = true → (firebaseConfigV2 env).apiKey ≠ "") := by
  constructor
  · intro h
    unfold servicesInitialized at h
    cases hv : getFirebaseConfig v with
    | none => rw [hv] at h; exact absurd h (by simp)
    | some c => rw [hv] at h; exact ⟨c, rfl, by simpa using h⟩
  · intro h
    simpa [dbInitializedV2] using h

/-- An environment defining every variable as `"k"`. -/
def fullEnv : String → Option String := fun _ => some "k"

/-- Witness for `init_guard_validates` on a parsed config with apiKey `"k"`
and on `fullEnv`. -/
theorem init_guard_validates_witness :
    (∃ c, getFirebaseConfig (some (some ⟨"k", "", "", "", "", ""⟩)) = some c ∧ c.apiKey ≠ "") ∧
    (firebaseConfigV2 fullEnv).apiKey ≠ "" :=
  ⟨(init_guard_validates (some (some ⟨"k", "", "", "", "", ""⟩)) fullEnv).1 (by decide),
   (init_guard_validates (some (some ⟨"k", "", "", "", "", ""⟩)) fullEnv).2 (by decide)⟩

/-- C9: every normalized record carries plain numbers in `aprobado` and
`pagado`: a field whose `Number(...)` coercion is `NaN` (missing or
non-numeric) maps to `0`, while any numeric value — negative values included
— passes through unchanged, in all three normalization variants. -/
theorem amount_normalization (d : RawDoc) :
    (jsToNumber d.MONTO_APROBADO = none →
      (normalizeDoc d).aprobado = 0 ∧ (normalizeDocPart d).aprobado = 0 ∧
      (normalizeDocV2 d).aprobado = 0) ∧
    (∀ q : ℚ, d.MONTO_APROBADO = RawVal.num q →
      (normalizeDoc d).aprobado = q ∧ (normalizeDocPart d).aprobado = q ∧
      (normalizeDocV2 d).aprobado = q) ∧
    (jsToNumber d.MONTO_PAGADO = none →
      (normalizeDoc d).pagado = 0 ∧ (normalizeDocPart d).pagado = 0 ∧
      (normalizeDocV2 d).pagado = 0) ∧
    (∀ q : ℚ, d.MONTO_PAGADO = RawVal.num q →
      (normalizeDoc d).pagado = q ∧ (normalizeDocPart d).pagado = q ∧
      (normalizeDocV2 d).pagado = q) := by
  have key : ∀ v : RawVal, (jsToNumber v = none → numberOrZero v = 0) ∧
      (∀ q : ℚ, v = RawVal.num q → numberOrZero v = q) := by
    intro v
    constructor
    · intro h
      simp [numberOrZero, h]
    · intro q hq
      subst hq
      by_cases h0 : q = 0 <;> simp [numberOrZero, jsToNumber, h0]
  exact ⟨fun h => ⟨(key _).1 h, (key _).1 h, (key _).1 h⟩,
         fun q h => ⟨(key _).2 q h, (key _).2 q h, (key _).2 q h⟩,
         fun h => ⟨(key _).1 h, (key _).1 h, (key _).1 h⟩,
         fun q h => ⟨(key _).2 q h, (key _).2 q h, (key _).2 q h⟩⟩

/-- Witness for `amount_normalization` on a document with a missing
`MONTO_APROBADO` and a negative `MONTO_PAGADO`. -/
theorem amount_normalization_witness :
    (normalizeDoc ⟨"x", some "A", none, RawVal.missing, RawVal.num (-5)⟩).aprobado = 0 ∧
    (normalizeDoc ⟨"x", some "A", none, RawVal.missing, RawVal.num (-5)⟩).pagado = -5 :=
  ⟨((amount_normalization ⟨"x", some "A", none, RawVal.missing, RawVal.num (-5)⟩).1 rfl).1,
   ((amount_normalization ⟨"x", some "A", none, RawVal.missing, RawVal.num (-5)⟩).2.2.2 (-5) rfl).1⟩

end Dashboard
